import Mathlib

/-!
Verification of the resilient paginated collection engine of the
Bangladesh-Ecommerce-Product-Price-Scrap repository, as implemented in
`tokbd.py` (class `TokBDScraper`) and mirrored in `skinnora.py`
(class `SkinnoraScraper`).

The embedding translates the scraper's state and control flow into pure
Lean functions.  Browser interaction is abstracted by environments that
assign an observable outcome to every page fetch / navigation attempt;
everything downstream of those outcomes follows the Python source
line by line.
-/

/-- A scraped product record, as built by `extract_product_data` in
`tokbd.py`.  The source carries further free-form attributes
(`index`, `currency`, `price_formatted`, `relative_url`, `image_url`,
`scraped_at`); identity is decided solely by `url`, so we keep `url`
plus representative attributes. -/
structure Record where
  name : String
  price : String
  url : String
  in_stock : Bool
deriving DecidableEq, Repr

/-- The mutable instance state of `TokBDScraper.__init__` (tokbd.py lines
33-36): `all_products`, `failed_pages`, `seen_urls` (a Python set, modelled
as a duplicate-free list queried by membership), `current_page`. -/
structure ScraperState where
  all_products : List Record
  failed_pages : List Nat
  seen_urls : List String
  current_page : Nat
deriving DecidableEq, Repr

/-- The state right after `TokBDScraper.__init__`. -/
def initState : ScraperState :=
  { all_products := [], failed_pages := [], seen_urls := [], current_page := 1 }

/-- One iteration of the per-record merge loop in `scrape_page`
(tokbd.py lines 228-231): a record whose `url` is already in `seen_urls`
is dropped; otherwise its url is added to `seen_urls` and the record is
appended to the collection. -/
def mergeRecord (s : ScraperState) (r : Record) : ScraperState :=
  if r.url ∈ s.seen_urls then s
  else { s with all_products := s.all_products ++ [r],
                seen_urls := s.seen_urls ++ [r.url] }

/-- The whole merge loop of `scrape_page` over one page's extracted
records, in extraction order. -/
def mergePage (s : ScraperState) (ps : List Record) : ScraperState :=
  ps.foldl mergeRecord s

/-- The `new_products` list computed by the loop in `scrape_page`
(tokbd.py lines 227-231): the records of the page whose `url` was not
seen before, keeping only the first occurrence within the page. -/
def newRecords (seen : List String) : List Record → List Record
  | [] => []
  | r :: rs =>
      if r.url ∈ seen then newRecords seen rs
      else r :: newRecords (seen ++ [r.url]) rs

/-- The observable outcome of processing one page, abstracting the
browser: `navFailed` = `safe_goto` returned False; `contentMissing` = no
content selector became visible; `content ps` = the content gate passed
and `extract_product_data` returned `ps` (possibly empty, also on an
extraction error, which that function converts to `[]`); `crashed` = an
unexpected exception reached the `except` clause of `scrape_page`. -/
inductive PageOutcome where
  | navFailed
  | contentMissing
  | content (products : List Record)
  | crashed
deriving DecidableEq, Repr

/-- `TokBDScraper.scrape_page` (tokbd.py lines 192-248) as a state
transformer returning the new state and the boolean result:
* navigation failure: append the page to `failed_pages`, return False;
* no content selector found: return False (state untouched);
* extraction result `ps`: merge the unseen records; return True if any
  were new, otherwise False exactly when `ps` itself was empty;
* unexpected exception: append the page to `failed_pages`, return False. -/
def scrape_page (s : ScraperState) (pageNum : Nat) (o : PageOutcome) :
    ScraperState × Bool :=
  match o with
  | .navFailed => ({ s with failed_pages := s.failed_pages ++ [pageNum] }, false)
  | .contentMissing => (s, false)
  | .crashed => ({ s with failed_pages := s.failed_pages ++ [pageNum] }, false)
  | .content ps =>
      let news := newRecords s.seen_urls ps
      if news ≠ [] then
        ({ s with all_products := s.all_products ++ news,
                  seen_urls := s.seen_urls ++ news.map Record.url }, true)
      else if ps = [] then (s, false)
      else (s, true)

/-- The checkpoint document written by `TokBDScraper.save_progress`
(tokbd.py lines 256-264): the keys of the JSON object, in source order. -/
structure Checkpoint where
  source : String
  scraped_at : String
  total_products : Nat
  pages_scraped : Nat
  failed_pages : List Nat
  currency : String
  products : List Record
deriving DecidableEq, Repr

/-- The checkpoint data assembled by `save_progress` from the current
scraper state (tokbd.py lines 256-264); `timestamp` stands for
`datetime.now().isoformat()`. -/
def save_progress_data (s : ScraperState) (timestamp : String) : Checkpoint :=
  { source := "https://tokbd.com"
    scraped_at := timestamp
    total_products := s.all_products.length
    pages_scraped := s.current_page - 1
    failed_pages := s.failed_pages
    currency := "BDT (Taka)"
    products := s.all_products }

/-- `TokBDScraper.load_progress` (tokbd.py lines 280-283): the collection
is taken from the persisted `products`, `seen_urls` is rebuilt as the set
of their `url` fields (Python set comprehension, modelled by `dedup`),
and the cursor restarts at `pages_scraped + 1`. -/
def load_progress (cp : Checkpoint) : ScraperState :=
  { all_products := cp.products
    seen_urls := (cp.products.map Record.url).dedup
    current_page := cp.pages_scraped + 1
    failed_pages := cp.failed_pages }

/-- The page loop of `TokBDScraper.scrape_all_pages` (tokbd.py lines
299-318), one constructor-level case per loop iteration.  `fuel` counts
the remaining iterations of `range(current_page, max_pages + 1)` (the
wrapper below supplies exactly that count), `pageNum` is the loop
variable.  Besides the final state, the function returns the list of
page numbers handed to `scrape_page`, in call order, so that theorems
can speak about which pages were fetched.

Each iteration: set `current_page := pageNum`; scrape the page; on
failure probe `pageNum + 1` with the same `scrape_page` (tokbd.py lines
304-313) and either stop (`break`) or record the advanced cursor and
continue.  The periodic `save_progress` call and the politeness sleep do
not change the scraper state and are not modelled here. -/
def scrape_all_pages_aux (env : Nat → PageOutcome) (maxPages : Nat) :
    Nat → Nat → ScraperState → ScraperState × List Nat
  | 0, _, s => (s, [])
  | fuel + 1, pageNum, s =>
      if maxPages < pageNum then (s, [])
      else
        let s0 := { s with current_page := pageNum }
        let r1 := scrape_page s0 pageNum (env pageNum)
        if r1.2 then
          let rest := scrape_all_pages_aux env maxPages fuel (pageNum + 1) r1.1
          (rest.1, pageNum :: rest.2)
        else
          let r2 := scrape_page r1.1 (pageNum + 1) (env (pageNum + 1))
          if r2.2 then
            let rest := scrape_all_pages_aux env maxPages fuel (pageNum + 1)
              { r2.1 with current_page := pageNum + 1 }
            (rest.1, pageNum :: (pageNum + 1) :: rest.2)
          else (r2.1, [pageNum, pageNum + 1])

/-- `TokBDScraper.scrape_all_pages`: run the loop from the state's
`current_page` (which `load_progress` may have advanced) up to
`maxPages`, as `range(self.current_page, max_pages + 1)` does. -/
def scrape_all_pages (env : Nat → PageOutcome) (maxPages : Nat)
    (s : ScraperState) : ScraperState × List Nat :=
  scrape_all_pages_aux env maxPages (maxPages + 1 - s.current_page) s.current_page s

/-- The state after scraping page `p` and then probing page `p + 1`,
exactly the two `scrape_page` calls the lookahead branch of
`scrape_all_pages` performs (tokbd.py lines 302-307). -/
def lookaheadProbe (env : Nat → PageOutcome) (p : Nat) (s : ScraperState) :
    ScraperState × Bool :=
  scrape_page (scrape_page { s with current_page := p } p (env p)).1 (p + 1) (env (p + 1))

/-- Outcome of the final `page.goto(url, wait_until='commit')` call of one
`safe_goto` attempt: success, a `PlaywrightTimeoutError`, or any other
exception. -/
inductive CommitOutcome where
  | ok
  | timeout
  | err
deriving DecidableEq, Repr

/-- The observable behavior of one `safe_goto` attempt (tokbd.py lines
77-90): whether each of the wait strategies `networkidle`,
`domcontentloaded`, `load` succeeds, and how the final minimal-wait
(`commit`) navigation ends if all strategies failed. -/
structure AttemptBehavior where
  strategySucceeds : List Bool
  commit : CommitOutcome
deriving DecidableEq, Repr

/-- Result of one whole `safe_goto` attempt: the strategies are tried in
order and any success returns True immediately; otherwise the attempt
ends the way the final `commit` navigation does. -/
def attemptOutcome (a : AttemptBehavior) : CommitOutcome :=
  if a.strategySucceeds.any (fun b => b) then .ok else a.commit

/-- What a `safe_goto` call did: its boolean result, the backoff sleeps
it performed (`await asyncio.sleep(5 * (retry_count + 1))`, in seconds,
in order), and how many attempts it made. -/
structure GotoResult where
  ok : Bool
  sleeps : List Nat
  attempts : Nat
deriving DecidableEq, Repr

/-- `TokBDScraper.safe_goto` (tokbd.py lines 72-103; `skinnora.py` lines
66-99 are identical).  `env k` is the behavior of attempt `k`
(`retry_count = k`).  On success: True.  On a timeout: if
`retry_count < max_retries - 1`, sleep `5 * (retry_count + 1)` seconds
and recurse with `retry_count + 1`, else return False.  On any other
exception: return False at once (tokbd.py lines 100-103).  `fuel` bounds
the recursion depth; the wrapper supplies more than `max_retries`, which
the guard `retry_count < max_retries - 1` never exceeds. -/
def safe_goto_aux (maxRetries : Nat) (env : Nat → AttemptBehavior) :
    Nat → Nat → GotoResult
  | 0, _ => { ok := false, sleeps := [], attempts := 0 }
  | fuel + 1, retryCount =>
      match attemptOutcome (env retryCount) with
      | .ok => { ok := true, sleeps := [], attempts := 1 }
      | .err => { ok := false, sleeps := [], attempts := 1 }
      | .timeout =>
          if retryCount < maxRetries - 1 then
            let rest := safe_goto_aux maxRetries env fuel (retryCount + 1)
            { ok := rest.ok, sleeps := 5 * (retryCount + 1) :: rest.sleeps,
              attempts := rest.attempts + 1 }
          else { ok := false, sleeps := [], attempts := 1 }

/-- `safe_goto` as called by `scrape_page`: `retry_count` starts at 0. -/
def safe_goto (maxRetries : Nat) (env : Nat → AttemptBehavior) : GotoResult :=
  safe_goto_aux maxRetries env (maxRetries + 1) 0

example :
    (scrape_page initState 1
      (PageOutcome.content [⟨"A", "1", "u1", true⟩, ⟨"B", "2", "u1", true⟩])).1.all_products
      = [⟨"A", "1", "u1", true⟩] := by decide

example : (scrape_page initState 3 PageOutcome.navFailed).1.failed_pages = [3] := by decide

example :
    safe_goto 3 (fun _ => { strategySucceeds := [false, false, false],
                            commit := CommitOutcome.timeout })
      = { ok := false, sleeps := [5, 10], attempts := 3 } := by decide

/-- One operation on the checkpoint file's contents.  `open(filename, 'w')`
truncates the file; `json.dump` then appends the serialized document. -/
inductive WriteOp where
  | truncate
  | append (data : String)
deriving DecidableEq, Repr

/-- Effect of one write operation on the file contents. -/
def applyOp (file : String) : WriteOp → String
  | .truncate => ""
  | .append d => file ++ d

/-- Contents of the file after a sequence of write operations. -/
def applyOps (file : String) (ops : List WriteOp) : String :=
  ops.foldl applyOp file

/-- Serialization of one record, after the fields `json.dump` emits for a
product (string escaping elided). -/
def serialize_record (r : Record) : String :=
  "\x7b\"name\": \"" ++ r.name ++ "\", \"price\": \"" ++ r.price ++
    "\", \"url\": \"" ++ r.url ++ "\", \"in_stock\": " ++
    (if r.in_stock then "true" else "false") ++ "\x7d"

/-- The key/value body of the checkpoint document of `save_progress`
(tokbd.py lines 256-264), in source key order. -/
def checkpoint_document_body (s : ScraperState) (timestamp : String) : String :=
  "\"source\": \"https://tokbd.com\", \"scraped_at\": \"" ++ timestamp ++
    "\", \"total_products\": " ++ toString s.all_products.length ++
    ", \"pages_scraped\": " ++ toString (s.current_page - 1) ++
    ", \"failed_pages\": " ++ toString s.failed_pages ++
    ", \"currency\": \"BDT (Taka)\", \"products\": [" ++
    String.intercalate ", " (s.all_products.map serialize_record) ++ "]"

/-- The full serialized checkpoint document. -/
def serialize_checkpoint (s : ScraperState) (timestamp : String) : String :=
  "\x7b" ++ checkpoint_document_body s timestamp ++ "\x7d"

/-- The write operations `TokBDScraper.save_progress` performs on
`tokbd_products.json` (tokbd.py lines 255-264): it opens the target file
itself with mode `'w'` — truncating it in place — and then writes the
document into it.  No temporary file and no rename are involved
(`skinnora.py` lines 374-381 behave the same way). -/
def save_progress_ops (s : ScraperState) (timestamp : String) : List WriteOp :=
  [WriteOp.truncate, WriteOp.append (serialize_checkpoint s timestamp)]

/-- All-or-nothing visibility: whatever k-step point a reader (or a
crash) observes during the write sequence, the file holds either the
complete previous contents or the complete new document. -/
def writeAtomic (oldDoc newDoc : String) (ops : List WriteOp) : Prop :=
  ∀ k : Nat, applyOps oldDoc (ops.take k) = oldDoc ∨
    applyOps oldDoc (ops.take k) = newDoc

/-- The invariant the spec states for the collection: `seen_urls` holds
exactly the urls of `all_products`, and no url occurs twice among them. -/
def stateInv (s : ScraperState) : Prop :=
  (∀ u, u ∈ s.seen_urls ↔ u ∈ s.all_products.map Record.url) ∧
    (s.all_products.map Record.url).Nodup

/-- Sample record A (url `/products/a`). -/
def recA : Record :=
  { name := "Product A", price := "100", url := "https://tokbd.com/products/a", in_stock := true }

/-- Sample record B (url `/products/b`). -/
def recB : Record :=
  { name := "Product B", price := "200", url := "https://tokbd.com/products/b", in_stock := true }

/-- Sample record C (url `/products/c`). -/
def recC : Record :=
  { name := "Product C", price := "300", url := "https://tokbd.com/products/c", in_stock := false }

/-- A later observation of product A: same `url` as `recA`, different
attributes. -/
def recA2 : Record :=
  { name := "Product A (relisted)", price := "120", url := "https://tokbd.com/products/a",
    in_stock := false }

/-- Fetch environment where page 8 carries one product and every other
page is empty: page 7 yields zero records, page 8 yields a new record. -/
def envEmpty7 : Nat → PageOutcome :=
  fun n => if n = 8 then PageOutcome.content [recA] else PageOutcome.content []

/-- Fetch environment where page 7 fails at navigation and every other
page carries product B. -/
def envNav7 : Nat → PageOutcome :=
  fun n => if n = 7 then PageOutcome.navFailed else PageOutcome.content [recB]

/-- Navigation environment in which every attempt times out on every
strategy and on the final commit navigation. -/
def envTimeout : Nat → AttemptBehavior :=
  fun _ => { strategySucceeds := [false, false, false], commit := CommitOutcome.timeout }

/-- Navigation environment in which every attempt fails with a
non-timeout error on the final commit navigation. -/
def envErr : Nat → AttemptBehavior :=
  fun _ => { strategySucceeds := [false, false, false], commit := CommitOutcome.err }

/-- Fetch environment where every page is empty. -/
def envAllEmpty : Nat → PageOutcome := fun _ => PageOutcome.content []

/-- A checkpoint recording 5 completed pages and 42 products with
pairwise distinct urls. -/
def cp42 : Checkpoint :=
  { source := "https://tokbd.com"
    scraped_at := "2024-01-01T00:00:00"
    total_products := 42
    pages_scraped := 5
    failed_pages := []
    currency := "BDT (Taka)"
    products := (List.range 42).map fun i =>
      { name := "Product " ++ toString i, price := toString (100 + i),
        url := "https://tokbd.com/products/item" ++ toString i, in_stock := true } }

theorem newRecords_not_seen {ps : List Record} :
    ∀ {seen : List String} {r : Record}, r ∈ newRecords seen ps → r.url ∉ seen := by
  induction ps with
  | nil => intro seen r h; simp [newRecords] at h
  | cons p rs ih =>
      intro seen r h
      by_cases hp : p.url ∈ seen
      · rw [newRecords, if_pos hp] at h
        exact ih h
      · rw [newRecords, if_neg hp] at h
        rcases List.mem_cons.1 h with h | h
        · subst h; exact hp
        · intro hr
          exact ih h (by simp [hr])

theorem newRecords_url_nodup {ps : List Record} :
    ∀ {seen : List String}, ((newRecords seen ps).map Record.url).Nodup := by
  induction ps with
  | nil => intro seen; simp [newRecords]
  | cons p rs ih =>
      intro seen
      by_cases hp : p.url ∈ seen
      · rw [newRecords, if_pos hp]; exact ih
      · rw [newRecords, if_neg hp]
        refine List.nodup_cons.2 ⟨?_, ih⟩
        intro hmem
        rcases List.mem_map.1 hmem with ⟨r, hr, hurl⟩
        exact newRecords_not_seen hr (by simp [hurl])

theorem newRecords_sublist {ps : List Record} :
    ∀ {seen : List String}, List.Sublist (newRecords seen ps) ps := by
  induction ps with
  | nil => intro seen; simp [newRecords]
  | cons p rs ih =>
      intro seen
      by_cases hp : p.url ∈ seen
      · rw [newRecords, if_pos hp]
        exact List.Sublist.cons p ih
      · rw [newRecords, if_neg hp]
        exact List.Sublist.cons₂ p ih

theorem newRecords_all_seen {ps : List Record} :
    ∀ {seen : List String}, (∀ r ∈ ps, r.url ∈ seen) → newRecords seen ps = [] := by
  induction ps with
  | nil => intro seen _; rfl
  | cons p rs ih =>
      intro seen h
      rw [newRecords, if_pos (h p (by simp))]
      exact ih fun r hr => h r (by simp [hr])

/-- The merge loop of `scrape_page`, expressed record by record
(`mergePage`), appends exactly the `new_products` list (`newRecords`) to
the collection and its urls to the seen set, touching nothing else. -/
theorem mergePage_eq {ps : List Record} :
    ∀ {s : ScraperState},
      (mergePage s ps).all_products = s.all_products ++ newRecords s.seen_urls ps ∧
      (mergePage s ps).seen_urls =
        s.seen_urls ++ (newRecords s.seen_urls ps).map Record.url ∧
      (mergePage s ps).failed_pages = s.failed_pages ∧
      (mergePage s ps).current_page = s.current_page := by
  induction ps with
  | nil => intro s; simp [mergePage, newRecords]
  | cons p rs ih =>
      intro s
      by_cases hp : p.url ∈ s.seen_urls
      · have hmr : mergeRecord s p = s := by rw [mergeRecord, if_pos hp]
        have hloop : mergePage s (p :: rs) = mergePage s rs := by
          simp [mergePage, hmr]
        rw [hloop, newRecords, if_pos hp]
        exact ih
      · have hmr : mergeRecord s p =
            { s with all_products := s.all_products ++ [p],
                     seen_urls := s.seen_urls ++ [p.url] } := by
          rw [mergeRecord, if_neg hp]
        have hloop : mergePage s (p :: rs) = mergePage (mergeRecord s p) rs := by
          simp [mergePage]
        rw [hloop, hmr, newRecords, if_neg hp]
        obtain ⟨h1, h2, h3, h4⟩ := @ih
          { s with all_products := s.all_products ++ [p],
                   seen_urls := s.seen_urls ++ [p.url] }
        refine ⟨?_, ?_, h3, h4⟩
        · rw [h1]; simp
        · rw [h2]; simp

/-- Every page number `scrape_all_pages_aux` hands to `scrape_page` is at
least the starting page. -/
theorem scrape_all_pages_aux_log_ge (env : Nat → PageOutcome) (maxPages : Nat) :
    ∀ (fuel pageNum : Nat) (s : ScraperState) (q : Nat),
      q ∈ (scrape_all_pages_aux env maxPages fuel pageNum s).2 → pageNum ≤ q := by
  intro fuel
  induction fuel with
  | zero => intro pageNum s q h; simp [scrape_all_pages_aux] at h
  | succ n ih =>
      intro pageNum s q h
      rw [scrape_all_pages_aux] at h
      by_cases hlt : maxPages < pageNum
      · rw [if_pos hlt] at h; simp at h
      · rw [if_neg hlt] at h
        simp only at h
        split at h
        · rcases List.mem_cons.1 h with h | h
          · omega
          · have := ih (pageNum + 1) _ q h; omega
        · split at h
          · rcases List.mem_cons.1 h with h | h
            · omega
            · rcases List.mem_cons.1 h with h | h
              · omega
              · have := ih (pageNum + 1) _ q h; omega
          · simp at h; omega

/-- `scrape_page` appends the page number to `failed_pages` exactly for a
navigation failure or an unexpected exception; no other outcome touches
the failed-page log. -/
theorem scrape_page_failed_pages (s : ScraperState) (m : Nat) (o : PageOutcome) :
    (scrape_page s m o).1.failed_pages =
      if o = PageOutcome.navFailed ∨ o = PageOutcome.crashed
      then s.failed_pages ++ [m] else s.failed_pages := by
  cases o with
  | navFailed => simp [scrape_page]
  | contentMissing => simp [scrape_page]
  | crashed => simp [scrape_page]
  | content qs =>
      simp only [scrape_page]
      split
      · simp
      · split <;> simp

/-- C2: merging a record whose `url` is already stored is a silent no-op,
so merging the same record (or any later record with the same `url`)
twice equals merging it once, and the first-seen record is never
overwritten. -/
theorem merge_duplicate_rejection (s : ScraperState) (r rLater : Record)
    (h : rLater.url = r.url) :
    mergeRecord (mergeRecord s r) rLater = mergeRecord s r ∧
    (mergeRecord (mergeRecord s r) rLater).all_products = (mergeRecord s r).all_products ∧
    (r.url ∈ s.seen_urls → mergeRecord s r = s) := by
  have dropDup : ∀ t : ScraperState, rLater.url ∈ t.seen_urls → mergeRecord t rLater = t := by
    intro t hm
    simp [mergeRecord, hm]
  have hmem : rLater.url ∈ (mergeRecord s r).seen_urls := by
    by_cases hr : r.url ∈ s.seen_urls <;> simp [mergeRecord, hr, h]
  have heq := dropDup _ hmem
  exact ⟨heq, by rw [heq], fun hr => by simp [mergeRecord, hr]⟩

/-- C2 witness: the relisted record `recA2` shares `recA`'s url; merging
it after `recA` changes nothing. -/
theorem merge_duplicate_rejection_witness :
    recA2.url = recA.url ∧
    (mergeRecord (mergeRecord initState recA) recA2 = mergeRecord initState recA ∧
     (mergeRecord (mergeRecord initState recA) recA2).all_products
        = (mergeRecord initState recA).all_products ∧
     (recA.url ∈ initState.seen_urls → mergeRecord initState recA = initState)) :=
  ⟨rfl, merge_duplicate_rejection initState recA recA2 rfl⟩

/-- C9: the merge loop preserves discovery order: each page's new records
are appended, in extraction order (a sublist of the raw extraction), to
the collection gathered so far; for page 1 = [A, B] and page 2 = [C, A]
with A a duplicate, the items are exactly [A, B, C]. -/
theorem items_discovery_order :
    (∀ (s : ScraperState) (ps : List Record),
        (mergePage s ps).all_products = s.all_products ++ newRecords s.seen_urls ps ∧
        List.Sublist (newRecords s.seen_urls ps) ps) ∧
    (mergePage (mergePage initState [recA, recB]) [recC, recA]).all_products
      = [recA, recB, recC] :=
  ⟨fun s ps => ⟨(@mergePage_eq ps s).1, newRecords_sublist⟩, by decide⟩

/-- C7 (amended): a page on which every content probe misses makes
`scrape_page` return False with the state untouched — in particular its
index is NOT appended to `failed_pages`, unlike a navigation failure —
and, the result being False, the orchestrator's lookahead probes the
next page. -/
theorem content_missing_not_recorded (s : ScraperState) (n : Nat) :
    (scrape_page s n PageOutcome.contentMissing).2 = false ∧
    (scrape_page s n PageOutcome.contentMissing).1 = s ∧
    (scrape_page s n PageOutcome.navFailed).1.failed_pages = s.failed_pages ++ [n] ∧
    (∀ (env : Nat → PageOutcome) (maxPages fuel : Nat) (s' : ScraperState),
        n ≤ maxPages → env n = PageOutcome.contentMissing →
        (n + 1) ∈ (scrape_all_pages_aux env maxPages (fuel + 1) n s').2) := by
  refine ⟨rfl, rfl, rfl, ?_⟩
  intro env maxPages fuel s' hle henv
  rw [scrape_all_pages_aux, if_neg (show ¬ maxPages < n by omega)]
  simp only [henv, scrape_page]
  simp only [Bool.false_eq_true, if_false]
  split <;> simp

/-- C7 witness: on page 7 with no content found and any later pages, the
lookahead fetches page 8. -/
theorem content_missing_not_recorded_witness :
    (7 ≤ 10 ∧ (fun _ => PageOutcome.contentMissing) 7 = PageOutcome.contentMissing) ∧
    8 ∈ (scrape_all_pages_aux (fun _ => PageOutcome.contentMissing) 10 (3 + 1) 7 initState).2 :=
  ⟨⟨by decide, rfl⟩,
    (content_missing_not_recorded initState 7).2.2.2
      (fun _ => PageOutcome.contentMissing) 10 3 initState (by decide) rfl⟩

/-- C7 counterexample: with all content probes missing on page 7,
`scrape_page` returns False but page 7 is not recorded in
`failed_pages`, contradicting the claim that it is recorded exactly as
for a navigation failure. -/
theorem content_missing_cx :
    (scrape_page initState 7 PageOutcome.contentMissing).2 = false ∧
    7 ∉ (scrape_page initState 7 PageOutcome.contentMissing).1.failed_pages := by
  decide

/-- C10: a page whose extraction returns at least one raw record, even if
every one is a duplicate of an already-seen url, makes `scrape_page`
report success (True, state unchanged); `scrape_page` returns False
exactly for a navigation failure, missing content, an unexpected
exception, or an extraction of zero raw records. -/
theorem scrape_page_success_characterization (s : ScraperState) (n : Nat)
    (ps : List Record) (hdup : ∀ r ∈ ps, r.url ∈ s.seen_urls) (hne : ps ≠ []) :
    (scrape_page s n (PageOutcome.content ps)).2 = true ∧
    (scrape_page s n (PageOutcome.content ps)).1 = s ∧
    (∀ o, (scrape_page s n o).2 = false ↔
      o = PageOutcome.navFailed ∨ o = PageOutcome.contentMissing ∨
      o = PageOutcome.crashed ∨ o = PageOutcome.content []) := by
  have hnews : newRecords s.seen_urls ps = [] := newRecords_all_seen hdup
  refine ⟨by simp [scrape_page, hnews, hne], by simp [scrape_page, hnews, hne], ?_⟩
  intro o
  cases o with
  | navFailed => simp [scrape_page]
  | contentMissing => simp [scrape_page]
  | crashed => simp [scrape_page]
  | content qs =>
      by_cases hq : qs = []
      · subst hq; simp [scrape_page, newRecords]
      · by_cases hn : newRecords s.seen_urls qs = [] <;> simp [scrape_page, hq, hn]

/-- C10 witness: after product A is collected, a page carrying only its
relisted duplicate is still a success and leaves the state unchanged. -/
theorem scrape_page_success_characterization_witness :
    (∀ r ∈ [recA2], r.url ∈ (mergeRecord initState recA).seen_urls) ∧
    ([recA2] ≠ ([] : List Record)) ∧
    ((scrape_page (mergeRecord initState recA) 2 (PageOutcome.content [recA2])).2 = true ∧
     (scrape_page (mergeRecord initState recA) 2 (PageOutcome.content [recA2])).1
        = mergeRecord initState recA ∧
     (∀ o, (scrape_page (mergeRecord initState recA) 2 o).2 = false ↔
        o = PageOutcome.navFailed ∨ o = PageOutcome.contentMissing ∨
        o = PageOutcome.crashed ∨ o = PageOutcome.content [])) :=
  ⟨by decide, by decide,
    scrape_page_success_characterization (mergeRecord initState recA) 2 [recA2]
      (by decide) (by decide)⟩

/-- C3: with `max_retries = 3` and every attempt timing out, `safe_goto`
makes exactly 3 attempts, sleeping 5 seconds before the 2nd and 10
seconds before the 3rd (`asyncio.sleep(5 * (retry_count + 1))`), and only
then reports failure. -/
theorem safe_goto_backoff_schedule (env : Nat → AttemptBehavior)
    (h : ∀ k, attemptOutcome (env k) = CommitOutcome.timeout) :
    safe_goto 3 env = { ok := false, sleeps := [5, 10], attempts := 3 } := by
  show safe_goto_aux 3 env (3 + 1) 0 = _
  rw [safe_goto_aux, h 0]
  norm_num
  rw [safe_goto_aux, h 1]
  norm_num
  rw [safe_goto_aux, h 2]
  norm_num

/-- C3 witness: the all-timeouts environment. -/
theorem safe_goto_backoff_schedule_witness :
    (∀ k, attemptOutcome (envTimeout k) = CommitOutcome.timeout) ∧
    safe_goto 3 envTimeout = { ok := false, sleeps := [5, 10], attempts := 3 } :=
  ⟨fun _ => rfl, safe_goto_backoff_schedule envTimeout (fun _ => rfl)⟩

/-- C8 (amended): a first attempt that fails with a non-timeout error
makes `safe_goto` return False immediately — one attempt, no backoff
sleeps — for every `max_retries`; only timeouts are retried
(tokbd.py lines 100-103). -/
theorem safe_goto_err_no_retry (maxRetries : Nat) (env : Nat → AttemptBehavior)
    (h : attemptOutcome (env 0) = CommitOutcome.err) :
    safe_goto maxRetries env = { ok := false, sleeps := [], attempts := 1 } := by
  show safe_goto_aux maxRetries env (maxRetries + 1) 0 = _
  rw [safe_goto_aux, h]

/-- C8 witness: the all-errors environment with `max_retries = 3`. -/
theorem safe_goto_err_no_retry_witness :
    attemptOutcome (envErr 0) = CommitOutcome.err ∧
    safe_goto 3 envErr = { ok := false, sleeps := [], attempts := 1 } :=
  ⟨rfl, safe_goto_err_no_retry 3 envErr rfl⟩

/-- C8 counterexample: with every attempt failing by a non-timeout error
and `max_retries = 3`, `safe_goto` performs a single attempt and no
backoff sleeps, not the claimed 3 attempts with the timeout backoff
schedule. -/
theorem safe_goto_err_cx :
    safe_goto 3 envErr = { ok := false, sleeps := [], attempts := 1 } ∧
    safe_goto 3 envErr ≠ { ok := false, sleeps := [5, 10], attempts := 3 } := by
  decide

/-- C5: the mirror invariant — `seen_urls` holds exactly the urls of
`all_products` and no url repeats — holds initially, is preserved by
every `scrape_page` outcome (hence by every page merge), survives a
save/load round trip, and holds after loading any checkpoint whose
persisted products carry pairwise distinct urls (as every checkpoint
written by `save_progress` from an invariant state does). -/
theorem seen_mirrors_items :
    stateInv initState ∧
    (∀ (s : ScraperState) (n : Nat) (o : PageOutcome),
        stateInv s → stateInv (scrape_page s n o).1) ∧
    (∀ (s : ScraperState) (t : String),
        stateInv s → stateInv (load_progress (save_progress_data s t))) ∧
    (∀ cp : Checkpoint, (cp.products.map Record.url).Nodup →
        stateInv (load_progress cp)) := by
  have hload : ∀ cp : Checkpoint, (cp.products.map Record.url).Nodup →
      stateInv (load_progress cp) := by
    intro cp hnd
    exact ⟨fun u => by simp [load_progress], by simpa [load_progress] using hnd⟩
  refine ⟨⟨fun u => by simp [initState], by simp [initState]⟩, ?_, ?_, hload⟩
  · intro s n o hs
    obtain ⟨hiff, hnd⟩ := hs
    cases o with
    | navFailed => exact ⟨fun u => hiff u, hnd⟩
    | contentMissing => exact ⟨hiff, hnd⟩
    | crashed => exact ⟨fun u => hiff u, hnd⟩
    | content ps =>
        by_cases hn : newRecords s.seen_urls ps = []
        · have : (scrape_page s n (PageOutcome.content ps)).1 = s := by
            simp only [scrape_page]
            rw [if_neg (by simp [hn])]
            split <;> rfl
          rw [this]; exact ⟨hiff, hnd⟩
        · have : (scrape_page s n (PageOutcome.content ps)).1 =
              { s with all_products := s.all_products ++ newRecords s.seen_urls ps,
                       seen_urls := s.seen_urls ++
                         (newRecords s.seen_urls ps).map Record.url } := by
            simp only [scrape_page]
            rw [if_pos (by simp [hn])]
          rw [this]
          constructor
          · intro u
            simp only [List.map_append, List.mem_append]
            exact or_congr (hiff u) Iff.rfl
          · simp only [List.map_append]
            refine List.Nodup.append hnd newRecords_url_nodup ?_
            intro u hu hnew
            rcases List.mem_map.1 hnew with ⟨r, hr, hurl⟩
            exact newRecords_not_seen hr ((hiff r.url).2 (hurl ▸ hu))
  · intro s t hs
    refine hload _ ?_
    exact hs.2

/-- C5 witness: the invariant after a concrete page merge and after a
concrete save/load round trip. -/
theorem seen_mirrors_items_witness :
    stateInv (scrape_page initState 1 (PageOutcome.content [recA, recB])).1 ∧
    stateInv (load_progress (save_progress_data initState "2024-01-01T00:00:00")) :=
  ⟨seen_mirrors_items.2.1 initState 1 (PageOutcome.content [recA, recB])
      seen_mirrors_items.1,
   seen_mirrors_items.2.2.1 initState "2024-01-01T00:00:00" seen_mirrors_items.1⟩

/-- C4: loading a checkpoint with `pages_scraped = 5` and 42 products
restores the products, sets the cursor to 6, rebuilds `seen_urls` as
exactly the persisted products' urls (the checkpoint stores no seen set
at all), and the resumed page loop touches no page below 6. -/
theorem load_progress_resume (cp : Checkpoint) (env : Nat → PageOutcome)
    (maxPages : Nat) (h5 : cp.pages_scraped = 5) (h42 : cp.products.length = 42) :
    (load_progress cp).current_page = 6 ∧
    (load_progress cp).all_products = cp.products ∧
    (load_progress cp).all_products.length = 42 ∧
    (∀ u, u ∈ (load_progress cp).seen_urls ↔ u ∈ cp.products.map Record.url) ∧
    (∀ q ∈ (scrape_all_pages env maxPages (load_progress cp)).2, 6 ≤ q) := by
  have h6 : (load_progress cp).current_page = 6 := by simp [load_progress, h5]
  refine ⟨h6, rfl, by simpa [load_progress] using h42, fun u => by simp [load_progress], ?_⟩
  intro q hq
  rw [scrape_all_pages] at hq
  have := scrape_all_pages_aux_log_ge env maxPages _ _ _ q hq
  omega

/-- C4 witness: the concrete 42-product checkpoint `cp42` resumed against
pages that have run empty. -/
theorem load_progress_resume_witness :
    cp42.pages_scraped = 5 ∧ cp42.products.length = 42 ∧
    ((load_progress cp42).current_page = 6 ∧
     (load_progress cp42).all_products = cp42.products ∧
     (load_progress cp42).all_products.length = 42 ∧
     (∀ u, u ∈ (load_progress cp42).seen_urls ↔ u ∈ cp42.products.map Record.url) ∧
     (∀ q ∈ (scrape_all_pages envAllEmpty 10 (load_progress cp42)).2, 6 ≤ q)) :=
  ⟨rfl, by decide, load_progress_resume cp42 envAllEmpty 10 rfl (by decide)⟩

/-- The serialized checkpoint document is never the empty string: it is
wrapped in braces. -/
theorem serialize_checkpoint_ne_empty (s : ScraperState) (t : String) :
    serialize_checkpoint s t ≠ "" := by
  intro h
  have hl := congrArg String.length h
  rw [serialize_checkpoint] at hl
  simp [String.length_append] at hl
  exact absurd hl.1.1 (by decide)

/-- C6 (amended): `save_progress` truncates the checkpoint file in place
and then writes the new document into it, with no temp-file-then-rename;
for any nonempty previous contents, a reader at some intermediate point
of the write sequence observes a file (the empty truncated one) that is
neither the old nor the new checkpoint, so the write is not atomic. -/
theorem save_progress_in_place_not_atomic (s : ScraperState) (t oldDoc : String)
    (h : oldDoc ≠ "") :
    save_progress_ops s t
        = [WriteOp.truncate, WriteOp.append (serialize_checkpoint s t)] ∧
    ¬ writeAtomic oldDoc (serialize_checkpoint s t) (save_progress_ops s t) := by
  refine ⟨rfl, ?_⟩
  intro hA
  have h1 := hA 1
  rw [save_progress_ops] at h1
  simp only [List.take, applyOps, List.foldl, applyOp] at h1
  rcases h1 with h1 | h1
  · exact h h1.symm
  · exact serialize_checkpoint_ne_empty s t h1.symm

/-- C6 witness: concrete nonempty previous contents. -/
theorem save_progress_in_place_not_atomic_witness :
    ("\x7b\"products\": []\x7d" ≠ "") ∧
    (save_progress_ops initState "2024-01-01T00:00:00"
        = [WriteOp.truncate,
           WriteOp.append (serialize_checkpoint initState "2024-01-01T00:00:00")] ∧
     ¬ writeAtomic "\x7b\"products\": []\x7d"
        (serialize_checkpoint initState "2024-01-01T00:00:00")
        (save_progress_ops initState "2024-01-01T00:00:00")) :=
  ⟨by decide,
   save_progress_in_place_not_atomic initState "2024-01-01T00:00:00"
     "\x7b\"products\": []\x7d" (by decide)⟩

/-- C6 counterexample: after the first step of `save_progress`'s write
sequence (the in-place truncation by `open(filename, 'w')`), a reader of
the checkpoint file observes the empty file — neither the previous
checkpoint nor the new one — refuting all-or-nothing visibility. -/
theorem save_progress_not_atomic_cx :
    ¬ writeAtomic "\x7b\"products\": []\x7d"
        (serialize_checkpoint initState "2024-01-01T00:00:00")
        (save_progress_ops initState "2024-01-01T00:00:00") := by
  intro hA
  have h1 := hA 1
  revert h1
  decide

/-- C1 (amended): when `scrape_page` fails on page `p` (navigation
failure, missing content, zero raw records, or an exception), the
orchestrator does not stop at `p`: it probes `p + 1` with the same
`scrape_page` pipeline; it terminates exactly when the probe also fails,
and otherwise continues from `p + 1` with the cursor advanced to
`p + 1`; after the probe, `p` is in `failedPages` iff page `p` failed by
navigation or by an unexpected exception (an empty or content-less page
`p` is NOT recorded). -/
theorem scrape_all_pages_lookahead (env : Nat → PageOutcome)
    (maxPages p fuel : Nat) (s : ScraperState) (hp : p ≤ maxPages)
    (hfail : (scrape_page { s with current_page := p } p (env p)).2 = false) :
    ((lookaheadProbe env p s).2 = false →
        scrape_all_pages_aux env maxPages (fuel + 1) p s
          = ((lookaheadProbe env p s).1, [p, p + 1])) ∧
    ((lookaheadProbe env p s).2 = true →
        scrape_all_pages_aux env maxPages (fuel + 1) p s
          = ((scrape_all_pages_aux env maxPages fuel (p + 1)
                { (lookaheadProbe env p s).1 with current_page := p + 1 }).1,
             p :: (p + 1) ::
               (scrape_all_pages_aux env maxPages fuel (p + 1)
                 { (lookaheadProbe env p s).1 with current_page := p + 1 }).2)) ∧
    (p ∈ (lookaheadProbe env p s).1.failed_pages ↔
        p ∈ s.failed_pages ∨ env p = PageOutcome.navFailed ∨
          env p = PageOutcome.crashed) := by
  have hnp : ¬ maxPages < p := by omega
  have hstep : scrape_all_pages_aux env maxPages (fuel + 1) p s =
      (if (lookaheadProbe env p s).2 then
        ((scrape_all_pages_aux env maxPages fuel (p + 1)
            { (lookaheadProbe env p s).1 with current_page := p + 1 }).1,
         p :: (p + 1) ::
           (scrape_all_pages_aux env maxPages fuel (p + 1)
             { (lookaheadProbe env p s).1 with current_page := p + 1 }).2)
       else ((lookaheadProbe env p s).1, [p, p + 1])) := by
    rw [scrape_all_pages_aux, if_neg hnp]
    simp only [lookaheadProbe, hfail, Bool.false_eq_true, if_false]
  have hfp : p ∈ (lookaheadProbe env p s).1.failed_pages ↔
      p ∈ s.failed_pages ∨ env p = PageOutcome.navFailed ∨
        env p = PageOutcome.crashed := by
    have hne : p ≠ p + 1 := by omega
    simp only [lookaheadProbe]
    rw [scrape_page_failed_pages, scrape_page_failed_pages]
    cases henv : env p <;> cases henv2 : env (p + 1) <;>
      simp [List.mem_append, hne]
  refine ⟨?_, ?_, hfp⟩
  · intro h2
    rw [hstep, if_neg (by simp [h2])]
  · intro h2
    rw [hstep, if_pos (by simp [h2])]

/-- C1 witness: page 7 fails at navigation, page 8 carries a new record;
the probe finds it, and 7 is recorded since the failure was at
navigation. -/
theorem scrape_all_pages_lookahead_witness :
    (7 ≤ 10 ∧ (scrape_page { initState with current_page := 7 } 7 (envNav7 7)).2 = false) ∧
    (7 ∈ (lookaheadProbe envNav7 7 initState).1.failed_pages ↔
      7 ∈ initState.failed_pages ∨ envNav7 7 = PageOutcome.navFailed ∨
        envNav7 7 = PageOutcome.crashed) :=
  ⟨⟨by decide, by decide⟩,
   (scrape_all_pages_lookahead envNav7 10 7 3 initState (by decide) (by decide)).2.2⟩

/-- C1 counterexample: page 7 returns zero records and page 8 returns one
new record; the run does not terminate at 7 (the cursor moves past 8 and
the record is collected) but `failed_pages` does not contain 7,
contradicting the claim that it does. -/
theorem lookahead_empty_page_cx :
    7 ∉ (scrape_all_pages envEmpty7 10
          { initState with current_page := 7 }).1.failed_pages ∧
    (scrape_all_pages envEmpty7 10
          { initState with current_page := 7 }).1.all_products = [recA] ∧
    8 ≤ (scrape_all_pages envEmpty7 10
          { initState with current_page := 7 }).1.current_page := by
  decide
